import Mathlib

/-
  Verification of the declarative firewall manager
  (src/Gabi/Task_5/firewall-manager/firewall-manager.py).

  The embedding translates the Python source into pure Lean functions:
  - `Rule`, `SAFE_BASELINE_RULES`, `normalize_policy`, `has_ssh`,
    `build_iptables_restore_blob`, `validate_applied`,
    `prompt_confirm_or_timeout`, `backup_current` mirror the Python
    functions of the same names;
  - the apply-mode control flow of `main` is embedded as `mainApply`,
    parameterised by an `Env` that stubs the external collaborators
    (the iptables controller, the filesystem, the operator's answers)
    and returning the trace of controller calls, the exit code and the
    terminal state of the session.
-/

namespace FirewallManager

/-- A firewall rule, as parsed from the YAML config (dataclass `Rule`). -/
structure Rule where
  name : String
  port : Int
  protocol : String
  action : String
  source : String
deriving DecidableEq

/-- The two fixed baseline safety statements (`SAFE_BASELINE_RULES`),
each a list of iptables argument parts, exactly as in the source. -/
def SAFE_BASELINE_RULES : List (List String) :=
  [ ["-A", "INPUT", "-m", "conntrack", "--ctstate", "ESTABLISHED,RELATED", "-j", "ACCEPT"],
    ["-A", "INPUT", "-i", "lo", "-j", "ACCEPT"] ]

deriving instance DecidableEq for Except

/-- Python's `str.lower`, character-wise (ASCII case mapping). -/
def pyLower (s : String) : String :=
  ⟨s.data.map Char.toLower⟩

/-- Python's `str.upper`, character-wise (ASCII case mapping). -/
def pyUpper (s : String) : String :=
  ⟨s.data.map Char.toUpper⟩

/-- Python's `str.strip()`: remove leading and trailing whitespace. -/
def pyStrip (s : String) : String :=
  ⟨((s.data.dropWhile Char.isWhitespace).reverse.dropWhile Char.isWhitespace).reverse⟩

/-- Python's `s.startswith(pre)`. -/
def pyStartsWith (s pre : String) : Bool :=
  pre.data.isPrefixOf s.data

/-- Python's slice `s[n:]`. -/
def strDrop (s : String) (n : Nat) : String :=
  ⟨s.data.drop n⟩

/-- Python's `" ".join(parts)`. -/
def joinParts (parts : List String) : String :=
  String.intercalate " " parts

/-- Python's substring test `pat in s`. -/
def containsSubstr (s pat : String) : Bool :=
  decide (pat.data <:+: s.data)

/-- `normalize_policy`: lower-case, check membership in accept/drop/reject,
return the upper-cased policy; raises `ValueError` (modelled as `Except.error`)
otherwise. -/
def normalize_policy (p : String) : Except String String :=
  let q := pyLower p
  if q = "accept" ∨ q = "drop" ∨ q = "reject" then Except.ok (pyUpper q)
  else Except.error ("Invalid policy: " ++ q)

/-- The `default_policy` section of the config: each chain's entry may be
absent (Python `desired.get(key, default)` supplies the default). -/
structure PolicyCfg where
  input : Option String
  forward : Option String
  output : Option String
deriving DecidableEq

/-- The normalized chain policies (the `policies` dict built in `main`). -/
structure Policies where
  input : String
  forward : String
  output : String
deriving DecidableEq

/-- Normalization of all three chain policies with the source's defaults
(input: drop, forward: drop, output: accept); the first invalid entry
raises, exactly as the Python `try` block around the three calls. -/
def normalizePolicies (cfg : PolicyCfg) : Except String Policies :=
  match normalize_policy (cfg.input.getD "drop") with
  | Except.error e => Except.error e
  | Except.ok i =>
    match normalize_policy (cfg.forward.getD "drop") with
    | Except.error e => Except.error e
    | Except.ok f =>
      match normalize_policy (cfg.output.getD "accept") with
      | Except.error e => Except.error e
      | Except.ok o => Except.ok ⟨i, f, o⟩

/-- The safety check in `main` (line 218):
`any(r.action == "accept" and r.protocol == "tcp" and r.port == 22 for r in rules)`. -/
def has_ssh (rules : List Rule) : Bool :=
  rules.any (fun r => r.action == "accept" && r.protocol == "tcp" && r.port == 22)

/-- The action keyword of the emitted statement:
`"ACCEPT" if r.action == "accept" else ("DROP" if r.action == "drop" else "REJECT")`. -/
def rule_action (r : Rule) : String :=
  if r.action = "accept" then "ACCEPT"
  else if r.action = "drop" then "DROP"
  else "REJECT"

/-- Source handling of `build_iptables_restore_blob`: `"any"` emits no
source filter, a leading `!` emits a negated `-s` match, otherwise a
positive `-s` match. -/
def src_parts (r : Rule) : List String :=
  if r.source = "any" then []
  else if pyStartsWith r.source "!" then ["!", "-s", strDrop r.source 1]
  else ["-s", r.source]

/-- The parts of one user-rule statement:
`["-A", "INPUT", "-p", proto] + src_parts + ["--dport", str(r.port), "-j", action]`. -/
def rule_parts (r : Rule) : List String :=
  ["-A", "INPUT", "-p", r.protocol] ++ src_parts r
    ++ ["--dport", toString r.port, "-j", rule_action r]

/-- The user-rule lines of the blob, in input order; the first rule whose
protocol is neither tcp nor udp raises `ValueError` (`Except.error`),
as in the loop of `build_iptables_restore_blob`. -/
def user_lines : List Rule → Except String (List String)
  | [] => Except.ok []
  | r :: rs =>
    if r.protocol ≠ "tcp" ∧ r.protocol ≠ "udp" then
      Except.error ("Unsupported protocol " ++ r.protocol ++ " in rule " ++ r.name)
    else
      match user_lines rs with
      | Except.error e => Except.error e
      | Except.ok rest => Except.ok (joinParts (rule_parts r) :: rest)

/-- The three chain-policy declaration lines of the blob. -/
def policy_lines (pol : Policies) : List String :=
  [ ":INPUT " ++ pol.input ++ " [0:0]",
    ":FORWARD " ++ pol.forward ++ " [0:0]",
    ":OUTPUT " ++ pol.output ++ " [0:0]" ]

/-- The ordered line list of `build_iptables_restore_blob`: `*filter`
header, policy declarations, baseline safety statements, user rules in
input order, `COMMIT`. -/
def build_lines (pol : Policies) (rules : List Rule) : Except String (List String) :=
  match user_lines rules with
  | Except.error e => Except.error e
  | Except.ok ul =>
    Except.ok (["*filter"] ++ policy_lines pol
      ++ SAFE_BASELINE_RULES.map joinParts ++ ul ++ ["COMMIT"])

/-- `build_iptables_restore_blob`: the lines joined by newlines plus a
trailing newline. -/
def build_iptables_restore_blob (pol : Policies) (rules : List Rule) :
    Except String String :=
  match build_lines pol rules with
  | Except.error e => Except.error e
  | Except.ok ls => Except.ok (String.intercalate "\n" ls ++ "\n")

/-- The first configured accept rule whose needle
`"--dport {port} -j ACCEPT"` is absent from the live dump (the loop at
the end of `validate_applied`). -/
def firstMissingAccept (rules : List Rule) (out : String) : Option Rule :=
  rules.find? (fun r =>
    r.action == "accept"
      && !(containsSubstr out ("--dport " ++ toString r.port ++ " -j ACCEPT")))

/-- `validate_applied`, with the live `iptables -S` dump passed in as
`out`: re-normalizes the desired policies from the config, checks the
three `-P` lines, checks the SSH substrings `--dport 22` and
`-j ACCEPT`, then checks each configured accept rule's needle. -/
def validate_applied (cfg : PolicyCfg) (rules : List Rule) (out : String) :
    Bool × String :=
  match normalizePolicies cfg with
  | Except.error e => (false, "Invalid default policy in config: " ++ e)
  | Except.ok pol =>
    if containsSubstr out ("-P INPUT " ++ pol.input) = false then
      (false, "Validation failed: INPUT policy is not " ++ pol.input)
    else if containsSubstr out ("-P FORWARD " ++ pol.forward) = false then
      (false, "Validation failed: FORWARD policy is not " ++ pol.forward)
    else if containsSubstr out ("-P OUTPUT " ++ pol.output) = false then
      (false, "Validation failed: OUTPUT policy is not " ++ pol.output)
    else if containsSubstr out "--dport 22" = false
        ∨ containsSubstr out "-j ACCEPT" = false then
      (false, "Validation failed: SSH (tcp/22 ACCEPT) rule missing")
    else
      match firstMissingAccept rules out with
      | some r => (false, "Validation failed: missing ACCEPT rule for port " ++ toString r.port)
      | none => (true, "Validation OK")

/-- `prompt_confirm_or_timeout`: the operator's answer (`some ans`) is
stripped and compared with `CONFIRM`; a timeout (`none`) returns false. -/
def prompt_confirm_or_timeout (ans : Option String) : Bool :=
  match ans with
  | some a => pyStrip a == "CONFIRM"
  | none => false

/-- The backup path `os.path.join(backup_dir, f"firewall-{ts}.rules")`. -/
def backup_filename (backupDir ts : String) : String :=
  backupDir ++ "/firewall-" ++ ts ++ ".rules"

/-- `backup_current` acting on a modelled filesystem (paths to contents):
it writes the current `iptables-save` output (`saved`) to the
timestamp-named path with Python's `open(path, "w")` semantics, which
truncates and replaces any existing file at that path; returns the new
filesystem and the path. -/
def backup_current (fs : String → Option String) (backupDir ts saved : String) :
    (String → Option String) × String :=
  let path := backup_filename backupDir ts
  (fun p => if p = path then some saved else fs p, path)

/-- One call across the external-process boundary: `save` is
`iptables-save` (used by the backup), `applyBlob` is `iptables-restore`
fed the newly compiled blob, `restoreBlob` is `iptables-restore` fed the
snapshot contents, `query` is `iptables -S` (used by validation). -/
inductive FwCall where
  | save : FwCall
  | applyBlob : String → FwCall
  | restoreBlob : String → FwCall
  | query : FwCall
deriving DecidableEq

/-- Whether a controller call is a restoration of snapshot contents. -/
def isRestoreCall : FwCall → Bool
  | FwCall.restoreBlob _ => true
  | _ => false

/-- The blob installed by the last mutating controller call, if any:
the live firewall state at the end of the trace (relative to the state
before the trace, which `none` denotes). -/
def lastApplied (trace : List FwCall) : Option String :=
  trace.foldl
    (fun acc c =>
      match c with
      | FwCall.applyBlob b => some b
      | FwCall.restoreBlob b => some b
      | _ => acc)
    none

/-- The terminal state of one apply-mode session, one per `sys.exit`
site of `main` (an uncaught exception also terminates the process with
exit code 1: `invalidRule` for the `ValueError` of the blob builder,
`backupFailed` for a failure inside `backup_current`). -/
inductive Terminal where
  | policyRefused : Terminal
  | invalidPolicy : Terminal
  | invalidRule : Terminal
  | aborted : Terminal
  | backupFailed : Terminal
  | failed : Terminal
  | rolledBack : Terminal
  | confirmed : Terminal
deriving DecidableEq

/-- The stubbed environment of one apply-mode run: `backupSave` is what
`iptables-save` returns at backup time (the snapshot contents),
`backupOk` whether the backup step succeeds, `applyOk` whether
`iptables-restore` of the new blob succeeds, `liveDump` the
`iptables -S` output after the apply, `noConfirm` the `--no-confirm`
flag, `firstAns` the operator's answer to the initial APPLY prompt, and
`confirmAns` the answer to the CONFIRM prompt (`none` = timeout). -/
structure Env where
  backupSave : String
  backupOk : Bool
  applyOk : Bool
  liveDump : String
  noConfirm : Bool
  firstAns : String
  confirmAns : Option String
deriving DecidableEq

/-- The observable outcome of one apply-mode session: the ordered trace
of controller calls, the process exit code, and the terminal state. -/
structure SessionResult where
  trace : List FwCall
  exitCode : Nat
  terminal : Terminal
deriving DecidableEq

/-- The apply-mode control flow of `main` (lines 214-287): SSH safety
check, policy normalization, blob compilation, initial APPLY prompt
(skipped under `--no-confirm`), backup, apply with rollback on failure,
validation with rollback on failure, then confirm-or-rollback (skipped
under `--no-confirm`). -/
def mainApply (cfg : PolicyCfg) (rules : List Rule) (env : Env) : SessionResult :=
  if has_ssh rules = false then ⟨[], 1, Terminal.policyRefused⟩ else
  match normalizePolicies cfg with
  | Except.error _ => ⟨[], 1, Terminal.invalidPolicy⟩
  | Except.ok pol =>
    match build_iptables_restore_blob pol rules with
    | Except.error _ => ⟨[], 1, Terminal.invalidRule⟩
    | Except.ok blob =>
      if env.noConfirm = false ∧ pyStrip env.firstAns ≠ "APPLY" then
        ⟨[], 0, Terminal.aborted⟩
      else if env.backupOk = false then
        ⟨[FwCall.save], 1, Terminal.backupFailed⟩
      else if env.applyOk = false then
        ⟨[FwCall.save, FwCall.applyBlob blob, FwCall.restoreBlob env.backupSave],
          1, Terminal.failed⟩
      else if (validate_applied cfg rules env.liveDump).1 = false then
        ⟨[FwCall.save, FwCall.applyBlob blob, FwCall.query,
            FwCall.restoreBlob env.backupSave],
          1, Terminal.failed⟩
      else if env.noConfirm then
        ⟨[FwCall.save, FwCall.applyBlob blob, FwCall.query], 0, Terminal.confirmed⟩
      else if prompt_confirm_or_timeout env.confirmAns then
        ⟨[FwCall.save, FwCall.applyBlob blob, FwCall.query], 0, Terminal.confirmed⟩
      else
        ⟨[FwCall.save, FwCall.applyBlob blob, FwCall.query,
            FwCall.restoreBlob env.backupSave],
          1, Terminal.rolledBack⟩

/-! ### Helper lemmas -/

/-- If compilation of the user rules succeeds, the emitted user lines are
exactly the joined `rule_parts` of the rules, in input order. -/
lemma user_lines_ok : ∀ (rules : List Rule) (ul : List String),
    user_lines rules = Except.ok ul →
    ul = rules.map (fun r => joinParts (rule_parts r)) := by
  intro rules
  induction rules with
  | nil =>
    intro ul h
    unfold user_lines at h
    cases h
    rfl
  | cons r rs ih =>
    intro ul h
    unfold user_lines at h
    split at h
    · cases h
    · split at h
      · cases h
      · cases h
        rename_i heq
        rw [List.map_cons, ih _ heq]

/-- The successful output of `build_lines` is exactly the header, the
policy declarations (input, forward, output), the two baseline safety
statements, the user rules in input order, and the commit marker. -/
lemma build_lines_ok (pol : Policies) (rules : List Rule) (ls : List String)
    (h : build_lines pol rules = Except.ok ls) :
    ls = ["*filter"] ++ policy_lines pol ++ SAFE_BASELINE_RULES.map joinParts
      ++ rules.map (fun r => joinParts (rule_parts r)) ++ ["COMMIT"] := by
  unfold build_lines at h
  split at h
  · cases h
  · cases h
    rename_i heq
    rw [user_lines_ok _ _ heq]

/-- If validation succeeds, the live dump contains both SSH substrings;
contrapositive: a dump lacking `--dport 22` or `-j ACCEPT` fails
validation, whatever the policies and rules. -/
lemma validate_ssh_check (cfg : PolicyCfg) (rules : List Rule) (out : String)
    (h : containsSubstr out "--dport 22" = false ∨ containsSubstr out "-j ACCEPT" = false) :
    (validate_applied cfg rules out).1 = false := by
  unfold validate_applied
  cases hp : normalizePolicies cfg with
  | error e => rfl
  | ok pol =>
    dsimp only
    split
    · rfl
    split
    · rfl
    split
    · rfl
    rfl

/-- Case analysis of every exit site of the apply-mode session:
exit code 0 exactly at `confirmed` and `aborted`; `aborted` makes no
controller call; `policyRefused` happens only when the SSH safety check
fails. -/
lemma mainApply_cases (cfg : PolicyCfg) (rules : List Rule) (env : Env)
    (res : SessionResult) (hres : mainApply cfg rules env = res) :
    (res.exitCode = 0 ↔ (res.terminal = Terminal.confirmed ∨ res.terminal = Terminal.aborted))
    ∧ (res.terminal = Terminal.aborted → res.trace = [])
    ∧ (res.terminal = Terminal.policyRefused → has_ssh rules = false) := by
  unfold mainApply at hres
  repeat' split at hres
  all_goals subst hres
  all_goals refine ⟨by simp, by simp, ?_⟩
  all_goals simp_all


/-! ### Claim theorems -/
set_option maxRecDepth 100000

/-- C1: for every configuration whose rule list contains no rule with
action accept, protocol tcp and port 22, the apply engine exits with
code 1 (the `PolicyRefused` terminal state) with an empty
controller-call trace: no backup is taken, no firewall-controller call
is made, and the live firewall state is unchanged. -/
theorem fw_C1 (cfg : PolicyCfg) (rules : List Rule) (env : Env)
    (h : ∀ r ∈ rules, ¬ (r.action = "accept" ∧ r.protocol = "tcp" ∧ r.port = 22)) :
    mainApply cfg rules env = ⟨[], 1, Terminal.policyRefused⟩ := by
  have hs : has_ssh rules = false := by
    unfold has_ssh
    rw [List.any_eq_false]
    intro r hr
    have hne := h r hr
    simp only [Bool.and_eq_true, beq_iff_eq]
    rintro ⟨⟨ha, hp⟩, hq⟩
    exact hne ⟨ha, hp, hq⟩
  unfold mainApply
  rw [hs]
  rfl

/-- C1 witness: a single tcp/80 accept rule is not an SSH rule, so the
session is refused with no controller calls. -/
theorem fw_C1_witness :
    mainApply ⟨none, none, none⟩ [⟨"web", 80, "tcp", "accept", "any"⟩]
        ⟨"PRE", true, true, "", true, "", none⟩
      = ⟨[], 1, Terminal.policyRefused⟩ :=
  fw_C1 ⟨none, none, none⟩ [⟨"web", 80, "tcp", "accept", "any"⟩]
    ⟨"PRE", true, true, "", true, "", none⟩ (by decide)

/-- C3: when the apply of the compiled blob fails after the backup,
`iptables-restore` is invoked exactly once with the snapshot captured in
this session, and the session terminates `Failed` with exit code 1. -/
theorem fw_C3 (cfg : PolicyCfg) (rules : List Rule) (env : Env) (pol : Policies) (blob : String)
    (hssh : has_ssh rules = true)
    (hpol : normalizePolicies cfg = Except.ok pol)
    (hblob : build_iptables_restore_blob pol rules = Except.ok blob)
    (hgate : env.noConfirm = true ∨ pyStrip env.firstAns = "APPLY")
    (hbk : env.backupOk = true)
    (happ : env.applyOk = false) :
    mainApply cfg rules env
      = ⟨[FwCall.save, FwCall.applyBlob blob, FwCall.restoreBlob env.backupSave],
          1, Terminal.failed⟩
    ∧ (mainApply cfg rules env).trace.filter isRestoreCall
      = [FwCall.restoreBlob env.backupSave] := by
  have hg : ¬ (env.noConfirm = false ∧ pyStrip env.firstAns ≠ "APPLY") := by
    rcases hgate with h | h
    · rw [h]; rintro ⟨hc, -⟩; cases hc
    · rw [h]; rintro ⟨-, hc⟩; exact hc rfl
  have hmain : mainApply cfg rules env
      = ⟨[FwCall.save, FwCall.applyBlob blob, FwCall.restoreBlob env.backupSave],
          1, Terminal.failed⟩ := by
    unfold mainApply
    rw [hssh]
    rw [if_neg (by decide)]
    rw [hpol]
    dsimp only
    rw [hblob]
    dsimp only
    rw [if_neg hg]
    rw [hbk]
    rw [if_neg (by decide)]
    rw [happ]
    rfl
  exact ⟨hmain, by rw [hmain]; rfl⟩

/-- C3 witness: a concrete session whose apply fails: the trace is the
save, the failed apply of the compiled blob, and exactly one restore of
the session snapshot `PRE`; exit code 1, terminal `Failed`. -/
theorem fw_C3_witness :
    mainApply ⟨none, none, none⟩ [⟨"ssh", 22, "tcp", "accept", "any"⟩]
        ⟨"PRE", true, false, "", true, "", none⟩
      = ⟨[FwCall.save,
          FwCall.applyBlob "*filter\n:INPUT DROP [0:0]\n:FORWARD DROP [0:0]\n:OUTPUT ACCEPT [0:0]\n-A INPUT -m conntrack --ctstate ESTABLISHED,RELATED -j ACCEPT\n-A INPUT -i lo -j ACCEPT\n-A INPUT -p tcp --dport 22 -j ACCEPT\nCOMMIT\n",
          FwCall.restoreBlob "PRE"], 1, Terminal.failed⟩
    ∧ (mainApply ⟨none, none, none⟩ [⟨"ssh", 22, "tcp", "accept", "any"⟩]
        ⟨"PRE", true, false, "", true, "", none⟩).trace.filter isRestoreCall
      = [FwCall.restoreBlob "PRE"] :=
  fw_C3 ⟨none, none, none⟩ [⟨"ssh", 22, "tcp", "accept", "any"⟩]
    ⟨"PRE", true, false, "", true, "", none⟩ ⟨"DROP", "DROP", "ACCEPT"⟩ _
    (by decide) (by decide) (by decide) (Or.inl rfl) rfl rfl

/-- C2 counterexample: a live dump whose only tcp/22 accept rule is
conditional (source-restricted to 10.0.0.1/32), so it contains no
unconditional tcp/22 accept statement, yet validation succeeds and the
session ends `Confirmed` with exit code 0 and no restore. -/
theorem fw_C2_counterexample :
    containsSubstr
        "-P INPUT DROP\n-P FORWARD DROP\n-P OUTPUT ACCEPT\n-A INPUT -p tcp -s 10.0.0.1/32 --dport 22 -j ACCEPT\n"
        "-A INPUT -p tcp --dport 22 -j ACCEPT" = false
    ∧ validate_applied ⟨none, none, none⟩ [⟨"ssh", 22, "tcp", "accept", "any"⟩]
        "-P INPUT DROP\n-P FORWARD DROP\n-P OUTPUT ACCEPT\n-A INPUT -p tcp -s 10.0.0.1/32 --dport 22 -j ACCEPT\n"
      = (true, "Validation OK")
    ∧ (mainApply ⟨none, none, none⟩ [⟨"ssh", 22, "tcp", "accept", "any"⟩]
        ⟨"PRE", true, true,
          "-P INPUT DROP\n-P FORWARD DROP\n-P OUTPUT ACCEPT\n-A INPUT -p tcp -s 10.0.0.1/32 --dport 22 -j ACCEPT\n",
          false, "APPLY", some "CONFIRM"⟩).terminal = Terminal.confirmed
    ∧ (mainApply ⟨none, none, none⟩ [⟨"ssh", 22, "tcp", "accept", "any"⟩]
        ⟨"PRE", true, true,
          "-P INPUT DROP\n-P FORWARD DROP\n-P OUTPUT ACCEPT\n-A INPUT -p tcp -s 10.0.0.1/32 --dport 22 -j ACCEPT\n",
          false, "APPLY", some "CONFIRM"⟩).exitCode = 0 := by
  exact ⟨by decide, by decide, by decide, by decide⟩

/-- C2 (amended): the post-apply mandatory-access check is textual: for
every live dump lacking the substring `--dport 22` or the substring
`-j ACCEPT`, validation fails, the snapshot is restored, and the session
terminates `Failed` with exit code 1. -/
theorem fw_C2 (cfg : PolicyCfg) (rules : List Rule) (env : Env) (pol : Policies) (blob : String)
    (hssh : has_ssh rules = true)
    (hpol : normalizePolicies cfg = Except.ok pol)
    (hblob : build_iptables_restore_blob pol rules = Except.ok blob)
    (hgate : env.noConfirm = true ∨ pyStrip env.firstAns = "APPLY")
    (hbk : env.backupOk = true)
    (happ : env.applyOk = true)
    (hdump : containsSubstr env.liveDump "--dport 22" = false
      ∨ containsSubstr env.liveDump "-j ACCEPT" = false) :
    (validate_applied cfg rules env.liveDump).1 = false
    ∧ mainApply cfg rules env
      = ⟨[FwCall.save, FwCall.applyBlob blob, FwCall.query, FwCall.restoreBlob env.backupSave],
          1, Terminal.failed⟩ := by
  have hval := validate_ssh_check cfg rules env.liveDump hdump
  have hg : ¬ (env.noConfirm = false ∧ pyStrip env.firstAns ≠ "APPLY") := by
    rcases hgate with h | h
    · rw [h]; rintro ⟨hc, -⟩; cases hc
    · rw [h]; rintro ⟨-, hc⟩; exact hc rfl
  refine ⟨hval, ?_⟩
  unfold mainApply
  rw [hssh]
  rw [if_neg (by decide)]
  rw [hpol]
  dsimp only
  rw [hblob]
  dsimp only
  rw [if_neg hg]
  rw [hbk]
  rw [if_neg (by decide)]
  rw [happ]
  rw [if_neg (by decide)]
  rw [hval]
  rfl

/-- C2 witness: an empty live dump lacks `--dport 22`, so validation
fails and the session rolls back to the snapshot and fails. -/
theorem fw_C2_witness :
    (validate_applied ⟨none, none, none⟩ [⟨"ssh", 22, "tcp", "accept", "any"⟩] "").1 = false
    ∧ mainApply ⟨none, none, none⟩ [⟨"ssh", 22, "tcp", "accept", "any"⟩]
        ⟨"PRE", true, true, "", true, "", none⟩
      = ⟨[FwCall.save,
          FwCall.applyBlob "*filter\n:INPUT DROP [0:0]\n:FORWARD DROP [0:0]\n:OUTPUT ACCEPT [0:0]\n-A INPUT -m conntrack --ctstate ESTABLISHED,RELATED -j ACCEPT\n-A INPUT -i lo -j ACCEPT\n-A INPUT -p tcp --dport 22 -j ACCEPT\nCOMMIT\n",
          FwCall.query, FwCall.restoreBlob "PRE"], 1, Terminal.failed⟩ :=
  fw_C2 ⟨none, none, none⟩ [⟨"ssh", 22, "tcp", "accept", "any"⟩]
    ⟨"PRE", true, true, "", true, "", none⟩ ⟨"DROP", "DROP", "ACCEPT"⟩ _
    (by decide) (by decide) (by decide) (Or.inl rfl) rfl rfl (Or.inl (by decide))

/-- C4: a session that reaches the confirmation step (validation passed)
and whose confirmation gate reports not-confirmed (timeout `none`, or an
answer whose stripped text is not CONFIRM) restores the session snapshot
as the last mutation (so the live state equals the pre-apply capture)
and terminates `RolledBack` with exit code 1. -/
theorem fw_C4 (cfg : PolicyCfg) (rules : List Rule) (env : Env) (pol : Policies) (blob : String)
    (hssh : has_ssh rules = true)
    (hpol : normalizePolicies cfg = Except.ok pol)
    (hblob : build_iptables_restore_blob pol rules = Except.ok blob)
    (hnc : env.noConfirm = false)
    (hfirst : pyStrip env.firstAns = "APPLY")
    (hbk : env.backupOk = true)
    (happ : env.applyOk = true)
    (hval : (validate_applied cfg rules env.liveDump).1 = true)
    (hgate : env.confirmAns = none ∨ ∃ a, env.confirmAns = some a ∧ pyStrip a ≠ "CONFIRM") :
    mainApply cfg rules env
      = ⟨[FwCall.save, FwCall.applyBlob blob, FwCall.query, FwCall.restoreBlob env.backupSave],
          1, Terminal.rolledBack⟩
    ∧ lastApplied (mainApply cfg rules env).trace = some env.backupSave := by
  have hpc : prompt_confirm_or_timeout env.confirmAns = false := by
    rcases hgate with h | ⟨a, ha, hne⟩
    · rw [h]; rfl
    · rw [ha]
      unfold prompt_confirm_or_timeout
      exact beq_eq_false_iff_ne.mpr hne
  have hg : ¬ (env.noConfirm = false ∧ pyStrip env.firstAns ≠ "APPLY") := by
    rintro ⟨-, hc⟩
    exact hc hfirst
  have hmain : mainApply cfg rules env
      = ⟨[FwCall.save, FwCall.applyBlob blob, FwCall.query, FwCall.restoreBlob env.backupSave],
          1, Terminal.rolledBack⟩ := by
    unfold mainApply
    rw [hssh]
    rw [if_neg (by decide)]
    rw [hpol]
    dsimp only
    rw [hblob]
    dsimp only
    rw [if_neg hg]
    rw [hbk]
    rw [if_neg (by decide)]
    rw [happ]
    rw [if_neg (by decide)]
    rw [hval]
    rw [if_neg (by decide)]
    rw [hnc]
    rw [if_neg (by decide)]
    rw [hpc]
    rw [if_neg (by decide)]
  exact ⟨hmain, by rw [hmain]; rfl⟩

/-- C4 witness: validation passes on the live dump, the gate times out
(`none`), and the session rolls back to the snapshot `PRE`. -/
theorem fw_C4_witness :
    mainApply ⟨none, none, none⟩ [⟨"ssh", 22, "tcp", "accept", "any"⟩]
        ⟨"PRE", true, true,
          "-P INPUT DROP\n-P FORWARD DROP\n-P OUTPUT ACCEPT\n-A INPUT -p tcp --dport 22 -j ACCEPT\n",
          false, "APPLY", none⟩
      = ⟨[FwCall.save,
          FwCall.applyBlob "*filter\n:INPUT DROP [0:0]\n:FORWARD DROP [0:0]\n:OUTPUT ACCEPT [0:0]\n-A INPUT -m conntrack --ctstate ESTABLISHED,RELATED -j ACCEPT\n-A INPUT -i lo -j ACCEPT\n-A INPUT -p tcp --dport 22 -j ACCEPT\nCOMMIT\n",
          FwCall.query, FwCall.restoreBlob "PRE"], 1, Terminal.rolledBack⟩
    ∧ lastApplied (mainApply ⟨none, none, none⟩ [⟨"ssh", 22, "tcp", "accept", "any"⟩]
        ⟨"PRE", true, true,
          "-P INPUT DROP\n-P FORWARD DROP\n-P OUTPUT ACCEPT\n-A INPUT -p tcp --dport 22 -j ACCEPT\n",
          false, "APPLY", none⟩).trace = some "PRE" :=
  fw_C4 ⟨none, none, none⟩ [⟨"ssh", 22, "tcp", "accept", "any"⟩]
    ⟨"PRE", true, true,
      "-P INPUT DROP\n-P FORWARD DROP\n-P OUTPUT ACCEPT\n-A INPUT -p tcp --dport 22 -j ACCEPT\n",
      false, "APPLY", none⟩ ⟨"DROP", "DROP", "ACCEPT"⟩ _
    (by decide) (by decide) (by decide) rfl (by decide) rfl rfl (by decide) (Or.inl rfl)

/-- C5 counterexample: a configuration whose only tcp/22 accept rule has
the negated source `!0.0.0.0/0` (excluding every source) is not refused:
the engine proceeds, makes controller calls (live mutation) and here
even terminates `Confirmed`. -/
theorem fw_C5_counterexample :
    (∀ r ∈ [(⟨"ssh", 22, "tcp", "accept", "!0.0.0.0/0"⟩ : Rule)], r.source = "!0.0.0.0/0")
    ∧ (mainApply ⟨none, none, none⟩ [⟨"ssh", 22, "tcp", "accept", "!0.0.0.0/0"⟩]
        ⟨"PRE", true, true,
          "-P INPUT DROP\n-P FORWARD DROP\n-P OUTPUT ACCEPT\n-A INPUT -p tcp ! -s 0.0.0.0/0 --dport 22 -j ACCEPT\n",
          true, "", none⟩).terminal ≠ Terminal.policyRefused
    ∧ (mainApply ⟨none, none, none⟩ [⟨"ssh", 22, "tcp", "accept", "!0.0.0.0/0"⟩]
        ⟨"PRE", true, true,
          "-P INPUT DROP\n-P FORWARD DROP\n-P OUTPUT ACCEPT\n-A INPUT -p tcp ! -s 0.0.0.0/0 --dport 22 -j ACCEPT\n",
          true, "", none⟩).terminal = Terminal.confirmed
    ∧ (mainApply ⟨none, none, none⟩ [⟨"ssh", 22, "tcp", "accept", "!0.0.0.0/0"⟩]
        ⟨"PRE", true, true,
          "-P INPUT DROP\n-P FORWARD DROP\n-P OUTPUT ACCEPT\n-A INPUT -p tcp ! -s 0.0.0.0/0 --dport 22 -j ACCEPT\n",
          true, "", none⟩).trace ≠ [] := by
  exact ⟨by decide, by decide, by decide, by decide⟩

/-- C5 (amended): the Idle-to-Compiled precondition checks only action,
protocol and port and ignores the rule's source entirely: every
configuration whose rule is accept/tcp/22 passes the check, whatever its
source (including the all-excluding `!0.0.0.0/0`), and the engine never
terminates `PolicyRefused` on it. -/
theorem fw_C5 (name source : String) (cfg : PolicyCfg) (env : Env) :
    has_ssh [⟨name, 22, "tcp", "accept", source⟩] = true
    ∧ (mainApply cfg [⟨name, 22, "tcp", "accept", source⟩] env).terminal
      ≠ Terminal.policyRefused := by
  have hs : has_ssh [⟨name, 22, "tcp", "accept", source⟩] = true := by
    unfold has_ssh
    simp
  refine ⟨hs, fun hterm => ?_⟩
  have h := (mainApply_cases cfg [⟨name, 22, "tcp", "accept", source⟩] env _ rfl).2.2 hterm
  rw [hs] at h
  cases h

/-- C6: the code names backups only by a second-resolution timestamp and
opens the file in write mode, so two captures in the same timestamp
target the identical path and the second truncates the first: after the
two captures the stored contents at the first capture's path are those
of the second capture. -/
theorem fw_C6 :
    (backup_current
        (backup_current (fun _ => none) "./backups" "20260101-120000" "SNAP1").1
        "./backups" "20260101-120000" "SNAP2").2
      = (backup_current (fun _ => none) "./backups" "20260101-120000" "SNAP1").2
    ∧ (backup_current
        (backup_current (fun _ => none) "./backups" "20260101-120000" "SNAP1").1
        "./backups" "20260101-120000" "SNAP2").1
        ((backup_current (fun _ => none) "./backups" "20260101-120000" "SNAP1").2)
      = some "SNAP2" := by
  exact ⟨rfl, by decide⟩

/-- C7: the compiled line list is exactly the *filter header, the three
chain-policy declarations in input/forward/output order, the two
baseline safety statements (established/related accept then loopback
accept), the user rules in input order, and the commit marker; and on
the example input (single unconditional tcp/22 accept rule, policies
drop/drop/accept) the program contains the unconditional tcp/22 accept
statement after the two baseline statements, in that relative order. -/
theorem fw_C7 (pol : Policies) (rules : List Rule) (ls : List String)
    (h : build_lines pol rules = Except.ok ls) :
    ls = ["*filter"] ++ policy_lines pol ++ SAFE_BASELINE_RULES.map joinParts
        ++ rules.map (fun r => joinParts (rule_parts r)) ++ ["COMMIT"]
    ∧ build_lines ⟨"DROP", "DROP", "ACCEPT"⟩ [⟨"ssh", 22, "tcp", "accept", "any"⟩]
      = Except.ok ["*filter", ":INPUT DROP [0:0]", ":FORWARD DROP [0:0]", ":OUTPUT ACCEPT [0:0]",
          "-A INPUT -m conntrack --ctstate ESTABLISHED,RELATED -j ACCEPT",
          "-A INPUT -i lo -j ACCEPT",
          "-A INPUT -p tcp --dport 22 -j ACCEPT",
          "COMMIT"] :=
  ⟨build_lines_ok pol rules ls h, by decide⟩

/-- C7 witness: the statement of fw_C7 instantiated at the example
input itself. -/
theorem fw_C7_witness :
    (["*filter", ":INPUT DROP [0:0]", ":FORWARD DROP [0:0]", ":OUTPUT ACCEPT [0:0]",
      "-A INPUT -m conntrack --ctstate ESTABLISHED,RELATED -j ACCEPT",
      "-A INPUT -i lo -j ACCEPT",
      "-A INPUT -p tcp --dport 22 -j ACCEPT",
      "COMMIT"] : List String)
      = ["*filter"] ++ policy_lines ⟨"DROP", "DROP", "ACCEPT"⟩
        ++ SAFE_BASELINE_RULES.map joinParts
        ++ [(⟨"ssh", 22, "tcp", "accept", "any"⟩ : Rule)].map (fun r => joinParts (rule_parts r))
        ++ ["COMMIT"]
    ∧ build_lines ⟨"DROP", "DROP", "ACCEPT"⟩ [⟨"ssh", 22, "tcp", "accept", "any"⟩]
      = Except.ok ["*filter", ":INPUT DROP [0:0]", ":FORWARD DROP [0:0]", ":OUTPUT ACCEPT [0:0]",
          "-A INPUT -m conntrack --ctstate ESTABLISHED,RELATED -j ACCEPT",
          "-A INPUT -i lo -j ACCEPT",
          "-A INPUT -p tcp --dport 22 -j ACCEPT",
          "COMMIT"] :=
  fw_C7 ⟨"DROP", "DROP", "ACCEPT"⟩ [⟨"ssh", 22, "tcp", "accept", "any"⟩] _ (by decide)

/-- C8 counterexample: in apply mode, answering anything but APPLY at
the initial prompt ends the session with exit code 0 although the
terminal state is the pre-apply abort, not `Confirmed`. -/
theorem fw_C8_counterexample :
    (mainApply ⟨none, none, none⟩ [⟨"ssh", 22, "tcp", "accept", "any"⟩]
        ⟨"PRE", true, true, "", false, "no", none⟩).exitCode = 0
    ∧ (mainApply ⟨none, none, none⟩ [⟨"ssh", 22, "tcp", "accept", "any"⟩]
        ⟨"PRE", true, true, "", false, "no", none⟩).terminal ≠ Terminal.confirmed := by
  exact ⟨by decide, by decide⟩

/-- C8 (amended): in apply mode the exit code is 0 exactly when the
session terminates `Confirmed` (including the skip-confirmation path) or
when the operator aborts at the initial pre-apply prompt; the aborted
session has made no controller call, and every other terminal state
yields exit code 1. -/
theorem fw_C8 (cfg : PolicyCfg) (rules : List Rule) (env : Env) :
    ((mainApply cfg rules env).exitCode = 0
      ↔ ((mainApply cfg rules env).terminal = Terminal.confirmed
          ∨ (mainApply cfg rules env).terminal = Terminal.aborted))
    ∧ ((mainApply cfg rules env).terminal = Terminal.aborted
        → (mainApply cfg rules env).trace = []) := by
  obtain ⟨h1, h2, -⟩ := mainApply_cases cfg rules env _ rfl
  exact ⟨h1, h2⟩

/-- C8 witness: the amended statement instantiated at the aborting
session of the counterexample. -/
theorem fw_C8_witness :
    ((mainApply ⟨none, none, none⟩ [⟨"ssh", 22, "tcp", "accept", "any"⟩]
        ⟨"PRE", true, true, "", false, "no", none⟩).exitCode = 0
      ↔ ((mainApply ⟨none, none, none⟩ [⟨"ssh", 22, "tcp", "accept", "any"⟩]
          ⟨"PRE", true, true, "", false, "no", none⟩).terminal = Terminal.confirmed
          ∨ (mainApply ⟨none, none, none⟩ [⟨"ssh", 22, "tcp", "accept", "any"⟩]
            ⟨"PRE", true, true, "", false, "no", none⟩).terminal = Terminal.aborted))
    ∧ ((mainApply ⟨none, none, none⟩ [⟨"ssh", 22, "tcp", "accept", "any"⟩]
        ⟨"PRE", true, true, "", false, "no", none⟩).terminal = Terminal.aborted
        → (mainApply ⟨none, none, none⟩ [⟨"ssh", 22, "tcp", "accept", "any"⟩]
          ⟨"PRE", true, true, "", false, "no", none⟩).trace = []) :=
  fw_C8 ⟨none, none, none⟩ [⟨"ssh", 22, "tcp", "accept", "any"⟩]
    ⟨"PRE", true, true, "", false, "no", none⟩

/-- C9: compilation is deterministic and pure: it is a function of the
(PolicySet, ordered rule list) input alone, so two compiles of equal
inputs produce byte-identical program text. -/
theorem fw_C9 (p1 p2 : Policies) (r1 r2 : List Rule) (h1 : p1 = p2) (h2 : r1 = r2) :
    build_iptables_restore_blob p1 r1 = build_iptables_restore_blob p2 r2 := by
  rw [h1, h2]

/-- C9 witness: two compiles of the example input agree. -/
theorem fw_C9_witness :
    build_iptables_restore_blob ⟨"DROP", "DROP", "ACCEPT"⟩ [⟨"ssh", 22, "tcp", "accept", "any"⟩]
      = build_iptables_restore_blob ⟨"DROP", "DROP", "ACCEPT"⟩ [⟨"ssh", 22, "tcp", "accept", "any"⟩] :=
  fw_C9 ⟨"DROP", "DROP", "ACCEPT"⟩ ⟨"DROP", "DROP", "ACCEPT"⟩
    [⟨"ssh", 22, "tcp", "accept", "any"⟩] [⟨"ssh", 22, "tcp", "accept", "any"⟩] rfl rfl

/-- C10: every appended rule statement of a successfully compiled
program - the two baseline statements and every user rule, whatever its
configuration - begins with `-A INPUT`, i.e. it is attached to the
INPUT chain; the FORWARD and OUTPUT chains receive only their policy
declarations, never an appended rule. -/
theorem fw_C10 (pol : Policies) (rules : List Rule) (ls : List String)
    (h : build_lines pol rules = Except.ok ls) :
    ls = ["*filter"] ++ policy_lines pol ++ SAFE_BASELINE_RULES.map joinParts
        ++ rules.map (fun r => joinParts (rule_parts r)) ++ ["COMMIT"]
    ∧ (∀ ps ∈ SAFE_BASELINE_RULES, ps.take 2 = ["-A", "INPUT"])
    ∧ (∀ r ∈ rules, (rule_parts r).take 2 = ["-A", "INPUT"]) :=
  ⟨build_lines_ok pol rules ls h, by decide, fun r _ => rfl⟩

/-- C10 witness: the statement of fw_C10 at a program with an accept, a
drop and a negated-source rule. -/
theorem fw_C10_witness :
    (["*filter", ":INPUT DROP [0:0]", ":FORWARD DROP [0:0]", ":OUTPUT ACCEPT [0:0]",
      "-A INPUT -m conntrack --ctstate ESTABLISHED,RELATED -j ACCEPT",
      "-A INPUT -i lo -j ACCEPT",
      "-A INPUT -p tcp --dport 22 -j ACCEPT",
      "-A INPUT -p udp ! -s 10.0.0.0/8 --dport 53 -j DROP",
      "COMMIT"] : List String)
      = ["*filter"] ++ policy_lines ⟨"DROP", "DROP", "ACCEPT"⟩
        ++ SAFE_BASELINE_RULES.map joinParts
        ++ [(⟨"ssh", 22, "tcp", "accept", "any"⟩ : Rule),
            ⟨"dns", 53, "udp", "drop", "!10.0.0.0/8"⟩].map (fun r => joinParts (rule_parts r))
        ++ ["COMMIT"]
    ∧ (∀ ps ∈ SAFE_BASELINE_RULES, ps.take 2 = ["-A", "INPUT"])
    ∧ (∀ r ∈ [(⟨"ssh", 22, "tcp", "accept", "any"⟩ : Rule),
            ⟨"dns", 53, "udp", "drop", "!10.0.0.0/8"⟩], (rule_parts r).take 2 = ["-A", "INPUT"]) :=
  fw_C10 ⟨"DROP", "DROP", "ACCEPT"⟩
    [⟨"ssh", 22, "tcp", "accept", "any"⟩, ⟨"dns", 53, "udp", "drop", "!10.0.0.0/8"⟩] _ (by decide)


end FirewallManager
